import Mathlib

/-!
Shallow embedding of the MindMapper Tauri backend commands
(src/src-tauri/src/lib.rs): the CLI availability probe
(detect_claude_cli), the process supervisor (spawn_claude with its
stdout reader thread, stderr reader thread and completion thread), and
the cancellation command (cancel_claude).

Modelling conventions:
  - JSON values built with the serde_json json! macro are modelled by
    the inductive JValue; object field order is kept as in the source.
  - The registry ClaudeProcess(Mutex<Option<u32>>) is modelled by
    RegistryState: the optional pid slot plus a poisoned flag; locking
    the mutex fails exactly when the flag is set, returning the Display
    string of std::sync::PoisonError.
  - OS interaction is passed in as explicit inputs: the result of
    Command::spawn is an Except String pid, the result of child.wait is
    an Except String (Option Int) (the inner Option models
    ExitStatus::code, which is none when the process was killed by a
    signal), and serde_json::from_str is a parameter of type
    String -> Option JValue since it is external library code.
  - The three background threads started by spawn_claude are modelled
    by a small-step relation (Step) over a SessionState holding the
    lines each reader still has to process and the trace of emitted
    events; the completion step is enabled only when both readers are
    done, mirroring the two JoinHandle join calls that precede
    child.wait and the claude:complete emission.
-/

namespace MindMapper

/-- Model of a serde_json::Value: null, booleans, numbers, strings,
arrays and objects. Numbers are modelled as integers, which covers
every numeric value this backend actually builds (pids and exit
codes). -/
inductive JValue where
  | null
  | bool (b : Bool)
  | num (n : Int)
  | str (s : String)
  | arr (elems : List JValue)
  | obj (fields : List (String × JValue))

/-- Captured output of a finished process, as produced by
Command::output in detect_claude_cli: the success flag of the exit
status (true exactly for a zero exit status) and the two captured
streams decoded to strings. -/
structure ProcOut where
  success : Bool
  stdout : String
  stderr : String

/-- Display string of std::sync::PoisonError, returned by
Mutex::lock().map_err(|e| e.to_string()) when the mutex is poisoned. -/
def poisonedLockMsg : String := "poisoned lock: another task failed inside"

/-- The command detect_claude_cli (lib.rs lines 14-43), as a function of
the result of Command::new("claude").arg("--version").output(): on a
launch error it returns Ok with installed=false and a descriptive
message; on captured output it branches on the exit status, trimming
stdout and stderr exactly as the source does. Every branch returns Ok:
the command never propagates an Err to the caller. -/
def detect_claude_cli (output : Except String ProcOut) : Except String JValue :=
  match output with
  | .ok out =>
      let stdout := out.stdout.trim
      let stderr := out.stderr.trim
      if out.success then
        .ok (.obj [("installed", .bool true), ("version", .str stdout),
          ("path", .str "claude")])
      else
        .ok (.obj [("installed", .bool false),
          ("error", .str (if stderr.isEmpty then stdout else stderr))])
  | .error e =>
      .ok (.obj [("installed", .bool false),
        ("error", .str ("Claude CLI not found: " ++ e))])

/-- Command::output holds no timeout: it blocks until the probed
process exits. A probe run is therefore a function of the optional
outcome of that wait, where the input none models a probed process that
never exits, in which case output() never returns and
detect_claude_cli never returns either (lib.rs lines 15-19). -/
def detect_claude_cli_run (waited : Option (Except String ProcOut)) :
    Option (Except String JValue) :=
  waited.map detect_claude_cli

/-- Exit code computed by the completion thread (lib.rs lines 183-189):
child.wait() yields Ok(status) whose code() is Some(c) or None (signal
death, modelled by the inner Option), or Err (wait failure); the source
maps both None and Err to -1 via unwrap_or(-1) and the error arm. -/
def completionExitCode : Except String (Option Int) → Int
  | .ok (some c) => c
  | .ok none => -1
  | .error _ => -1

/-- True exactly on the inputs where the exit status of the process is
not available to the completion thread: code() returned None (killed by
a signal) or wait() itself failed. -/
def statusUnobtainable : Except String (Option Int) → Bool
  | .ok (some _) => false
  | .ok none => true
  | .error _ => true

/-- Events emitted to the frontend, one constructor per channel:
claude:started, claude:progress, claude:error, claude:complete, with
the payload fields the source puts in each json! object. -/
inductive Event where
  | started (sessionId : String) (pid : Nat)
  | progress (sessionId : String) (kind : String) (data : JValue)
  | error (sessionId : String) (message : String)
  | complete (sessionId : String) (exitCode : Int) (success : Bool)

/-- Channel name each event is emitted on. -/
def Event.channel : Event → String
  | .started _ _ => "claude:started"
  | .progress _ _ _ => "claude:progress"
  | .error _ _ => "claude:error"
  | .complete _ _ _ => "claude:complete"

/-- True for the events produced by the two stream reader threads
(progress and error), false for started and complete. -/
def Event.isStream : Event → Bool
  | .progress _ _ _ => true
  | .error _ _ => true
  | _ => false

/-- Classification of one stdout line by the stdout reader thread
(lib.rs lines 128-140): try serde_json::from_str; on success emit a
progress event of kind json carrying the parsed value, otherwise one of
kind text carrying the verbatim line as a JSON string. The parameter
parse stands for serde_json::from_str, external library code. -/
def progressEventOf (parse : String → Option JValue)
    (sessionId text : String) : Event :=
  match parse text with
  | some json => .progress sessionId "json" json
  | none => .progress sessionId "text" (.str text)

/-- Event emitted by the stderr reader thread for one stderr line
(lib.rs lines 158-161): unconditionally a claude:error event with the
raw line as message; no parse attempt. -/
def errorEventOf (sessionId text : String) : Event :=
  .error sessionId text

/-- The registry ClaudeProcess(Mutex<Option<u32>>): the optional pid
slot together with whether the mutex is poisoned. Locking fails exactly
when poisoned is true. -/
structure RegistryState where
  poisoned : Bool
  slot : Option Nat

/-- Observable outcome of one cancel_claude call: the registry state it
leaves behind, the pids it issued OS termination requests for (taskkill
of the process tree on Windows, SIGTERM on Unix - both are modelled as
one termination request), the events it emitted (cancel_claude contains
no emit call, so this list is always empty), and its return value. -/
structure CancelOutcome where
  registry : RegistryState
  kills : List Nat
  events : List Event
  result : Except String JValue

/-- The command cancel_claude (lib.rs lines 210-242): lock the registry
mutex (an error return if poisoned), take() the slot, and if a pid was
present request its termination and report cancelled=true with the pid;
otherwise report cancelled=false with a reason. The take happens under
the lock and the command returns without waiting for the process to
exit: the termination request is merely recorded in kills. -/
def cancel_claude (st : RegistryState) : CancelOutcome :=
  if st.poisoned then
    { registry := st, kills := [], events := [],
      result := .error poisonedLockMsg }
  else
    match st.slot with
    | some pid =>
        { registry := { poisoned := false, slot := none },
          kills := [pid], events := [],
          result := .ok (.obj [("cancelled", .bool true),
            ("pid", .num (pid : Int))]) }
    | none =>
        { registry := { poisoned := false, slot := none },
          kills := [], events := [],
          result := .ok (.obj [("cancelled", .bool false),
            ("reason", .str "No active Claude Code process")]) }

/-- Session id derived from the pid (lib.rs line 104). -/
def sessionIdOf (pid : Nat) : String := "session_" ++ toString pid

/-- Observable outcome of the synchronous part of one spawn_claude call
(lib.rs lines 88-206): whether the OS process was launched and its pid,
the registry state left behind, the events emitted synchronously before
returning, whether the reader and completion threads were started, and
the return value. -/
structure SpawnOutcome where
  childSpawned : Bool
  childPid : Option Nat
  registry : RegistryState
  events : List Event
  readersStarted : Bool
  result : Except String JValue

/-- The synchronous part of the command spawn_claude, as a function of
the registry state and of the result of Command::spawn (Ok pid or the
launch error). On a launch error the question-mark operator returns the
formatted message before any registry access, emit or thread start. On
success the pid is stored under the registry lock (an error return if
poisoned, after which the already-launched child is left untracked and
no event is emitted and no thread started), the claude:started event is
emitted, the three background threads are started, and a sessionId,
pid, status object is returned. -/
def spawn_claude (st : RegistryState) (osSpawn : Except String Nat) :
    SpawnOutcome :=
  match osSpawn with
  | .error e =>
      { childSpawned := false, childPid := none, registry := st,
        events := [], readersStarted := false,
        result := .error ("Failed to spawn Claude CLI: " ++ e) }
  | .ok pid =>
      if st.poisoned then
        { childSpawned := true, childPid := some pid, registry := st,
          events := [], readersStarted := false,
          result := .error poisonedLockMsg }
      else
        { childSpawned := true, childPid := some pid,
          registry := { poisoned := false, slot := some pid },
          events := [.started (sessionIdOf pid) pid],
          readersStarted := true,
          result := .ok (.obj [("sessionId", .str (sessionIdOf pid)),
            ("pid", .num (pid : Int)), ("status", .str "started")]) }

/-- Inputs of one successful spawn session: the session id and pid, the
parse function (serde_json::from_str), the successful line reads each
reader thread will make before its loop ends (by stream close or by the
break on a read error), and the result of child.wait. -/
structure SessionConfig where
  sessionId : String
  pid : Nat
  parse : String → Option JValue
  outLines : List String
  errLines : List String
  waitResult : Except String (Option Int)

/-- The claude:complete event the completion thread emits (lib.rs lines
191-195): exit code from child.wait and success defined as the exit
code being zero. -/
def completeEventOf (cfg : SessionConfig) : Event :=
  .complete cfg.sessionId (completionExitCode cfg.waitResult)
    (completionExitCode cfg.waitResult == 0)

/-- State of one running session: the lines each reader thread still
has to process, whether the completion thread has already emitted
claude:complete, and the trace of emitted events, most recent first. -/
structure SessionState where
  outRem : List String
  errRem : List String
  completeEmitted : Bool
  trace : List Event

/-- State right after spawn_claude returns: both readers still have all
their lines, the completion thread has not fired, and the trace holds
exactly the claude:started event that spawn emitted synchronously
before starting the threads (lib.rs line 107). -/
def initState (cfg : SessionConfig) : SessionState :=
  { outRem := cfg.outLines, errRem := cfg.errLines,
    completeEmitted := false,
    trace := [.started cfg.sessionId cfg.pid] }

/-- Interleaving semantics of the three background threads of
spawn_claude. The stdout and stderr readers each emit one event per
line, in line order, concurrently with each other; the completion step
is enabled only once both readers have no lines left (the two join
calls at lib.rs lines 179-180) and fires at most once, emitting
claude:complete. -/
inductive Step (cfg : SessionConfig) : SessionState → SessionState → Prop where
  | stdout (l : String) (rest errRem : List String) (ce : Bool)
      (tr : List Event) :
      Step cfg ⟨l :: rest, errRem, ce, tr⟩
        ⟨rest, errRem, ce, progressEventOf cfg.parse cfg.sessionId l :: tr⟩
  | stderr (outRem : List String) (l : String) (rest : List String)
      (ce : Bool) (tr : List Event) :
      Step cfg ⟨outRem, l :: rest, ce, tr⟩
        ⟨outRem, rest, ce, errorEventOf cfg.sessionId l :: tr⟩
  | complete (tr : List Event) :
      Step cfg ⟨[], [], false, tr⟩ ⟨[], [], true, completeEventOf cfg :: tr⟩

/-- Multi-step reachability of session states. -/
def Reaches (cfg : SessionConfig) : SessionState → SessionState → Prop :=
  Relation.ReflTransGen (Step cfg)

/-- All events of a list are reader events (progress or error). -/
def StreamOnly (l : List Event) : Prop := ∀ e ∈ l, e.isStream = true

/-- Invariant of a running session: the trace is the started event,
then reader events, and, exactly when the completion thread has fired,
the complete event on top; moreover the completion thread fires only
after both readers are done. -/
def SessionInv (cfg : SessionConfig) (s : SessionState) : Prop :=
  ∃ mid, StreamOnly mid ∧
    ((s.completeEmitted = false ∧
        s.trace = mid ++ [Event.started cfg.sessionId cfg.pid]) ∨
     (s.completeEmitted = true ∧ s.outRem = [] ∧ s.errRem = [] ∧
        s.trace = completeEventOf cfg ::
          (mid ++ [Event.started cfg.sessionId cfg.pid])))

/-- Concrete session for exercising the event-ordering theorem: a parse
function that rejects every line, one stdout line, one stderr line and
a zero exit status. -/
abbrev exampleSession : SessionConfig :=
  { sessionId := "session_7", pid := 7, parse := fun _ => none,
    outLines := ["a"], errLines := ["b"], waitResult := .ok (some 0) }

/-- Final state of the run of exampleSession that reads the stdout
line, then the stderr line, then completes. -/
abbrev exampleFinal : SessionState :=
  { outRem := [], errRem := [], completeEmitted := true,
    trace := [completeEventOf exampleSession,
      errorEventOf "session_7" "b",
      progressEventOf exampleSession.parse "session_7" "a",
      Event.started "session_7" 7] }

/-- Concrete stand-in for serde_json::from_str that accepts exactly the
line 42. -/
abbrev exampleParse : String → Option JValue :=
  fun s => if s = "42" then some (.num 42) else none

/-- Concrete session whose child.wait call fails, so the exit status is
unobtainable. -/
abbrev exampleFailedWait : SessionConfig :=
  { sessionId := "session_9", pid := 9, parse := fun _ => none,
    outLines := [], errLines := [], waitResult := .error "boom" }

/-- Both classification outcomes of a stdout line are progress events. -/
theorem progressEventOf_isStream (parse : String → Option JValue)
    (sessionId text : String) :
    (progressEventOf parse sessionId text).isStream = true := by
  cases hp : parse text <;> simp [progressEventOf, hp, Event.isStream]

/-- Stderr line events are stream events. -/
theorem errorEventOf_isStream (sessionId text : String) :
    (errorEventOf sessionId text).isStream = true := rfl

/-- The session invariant holds right after spawn returns. -/
theorem sessionInv_init (cfg : SessionConfig) :
    SessionInv cfg (initState cfg) :=
  ⟨[], fun e he => absurd he (List.not_mem_nil e), Or.inl ⟨rfl, rfl⟩⟩

/-- The session invariant is preserved by every thread step. -/
theorem sessionInv_step (cfg : SessionConfig) {s t : SessionState}
    (h : SessionInv cfg s) (hst : Step cfg s t) : SessionInv cfg t := by
  obtain ⟨mid, hmo, hcase⟩ := h
  cases hst with
  | stdout l rest errRem ce tr =>
      rcases hcase with ⟨hce, htr⟩ | ⟨hce, hout, herr, htr⟩
      · refine ⟨progressEventOf cfg.parse cfg.sessionId l :: mid, ?_, Or.inl ⟨hce, ?_⟩⟩
        · intro e he
          rcases List.mem_cons.mp he with he | he
          · rw [he]; exact progressEventOf_isStream cfg.parse cfg.sessionId l
          · exact hmo e he
        · simpa using htr
      · exact absurd hout (by simp)
  | stderr outRem l rest ce tr =>
      rcases hcase with ⟨hce, htr⟩ | ⟨hce, hout, herr, htr⟩
      · refine ⟨errorEventOf cfg.sessionId l :: mid, ?_, Or.inl ⟨hce, ?_⟩⟩
        · intro e he
          rcases List.mem_cons.mp he with he | he
          · rw [he]; exact errorEventOf_isStream cfg.sessionId l
          · exact hmo e he
        · simpa using htr
      · exact absurd herr (by simp)
  | complete tr =>
      rcases hcase with ⟨hce, htr⟩ | ⟨hce, hout, herr, htr⟩
      · exact ⟨mid, hmo, Or.inr ⟨rfl, rfl, rfl, by simpa using htr⟩⟩
      · exact absurd hce (by simp)

/-- The session invariant holds in every reachable session state. -/
theorem sessionInv_reaches (cfg : SessionConfig) {s : SessionState}
    (h : Reaches cfg (initState cfg) s) : SessionInv cfg s := by
  induction h with
  | refl => exact sessionInv_init cfg
  | tail _ hstep ih => exact sessionInv_step cfg ih hstep

/-- C1: in every completed run of a successful spawn (a reachable
session state from which no thread can step any more), the emitted
trace, in emission order, is exactly one claude:started event, then
reader (progress or error) events only, then exactly one
claude:complete event: started precedes every progress and error event,
complete follows all of them, is emitted only once both readers are
done (the complete step requires both line lists empty), and is neither
duplicated nor missing. -/
theorem spawn_claude_event_ordering (cfg : SessionConfig) (s : SessionState)
    (hreach : Reaches cfg (initState cfg) s)
    (hterm : ∀ t, ¬ Step cfg s t) :
    ∃ mid, s.trace.reverse =
        Event.started cfg.sessionId cfg.pid :: (mid ++ [completeEventOf cfg]) ∧
      StreamOnly mid := by
  obtain ⟨mid, hmo, hcase⟩ := sessionInv_reaches cfg hreach
  obtain ⟨outRem, errRem, ce, tr⟩ := s
  rcases hcase with ⟨hce, htr⟩ | ⟨hce, hout, herr, htr⟩
  · exfalso
    simp only at hce htr
    subst hce
    cases outRem with
    | cons l rest => exact hterm _ (Step.stdout l rest errRem false tr)
    | nil =>
        cases errRem with
        | cons l rest => exact hterm _ (Step.stderr [] l rest false tr)
        | nil => exact hterm _ (Step.complete tr)
  · simp only at hce hout herr htr
    refine ⟨mid.reverse, ?_, ?_⟩
    · simp only [htr, List.reverse_cons, List.reverse_append,
        List.reverse_singleton, List.append_assoc, List.singleton_append,
        List.cons_append, List.reverse_nil, List.nil_append]
    · intro e he
      exact hmo e (List.mem_reverse.mp he)

/-- Witness for C1: the run of exampleSession that reads stdout, then
stderr, then completes, satisfies the event-ordering conclusion. -/
theorem spawn_claude_event_ordering_witness :
    ∃ mid, exampleFinal.trace.reverse =
        Event.started exampleSession.sessionId exampleSession.pid ::
          (mid ++ [completeEventOf exampleSession]) ∧
      StreamOnly mid :=
  spawn_claude_event_ordering exampleSession exampleFinal
    (Relation.ReflTransGen.tail
      (Relation.ReflTransGen.tail
        (Relation.ReflTransGen.tail Relation.ReflTransGen.refl
          (Step.stdout "a" [] ["b"] false [Event.started "session_7" 7]))
        (Step.stderr [] "b" [] false
          [progressEventOf exampleSession.parse "session_7" "a",
            Event.started "session_7" 7]))
      (Step.complete
        [errorEventOf "session_7" "b",
          progressEventOf exampleSession.parse "session_7" "a",
          Event.started "session_7" 7]))
    (by intro t h; cases h)

/-- C2: every stdout line that parses as JSON yields a progress event
of kind json carrying the parsed value, every other stdout line yields
a progress event of kind text carrying the verbatim line, and every
stderr line yields an error event with the raw line as message, with no
parse attempt. -/
theorem stdout_stderr_classification (parse : String → Option JValue)
    (sessionId text : String) :
    (∀ j, parse text = some j →
        progressEventOf parse sessionId text =
          Event.progress sessionId "json" j) ∧
    (parse text = none →
        progressEventOf parse sessionId text =
          Event.progress sessionId "text" (.str text)) ∧
    errorEventOf sessionId text = Event.error sessionId text := by
  refine ⟨?_, ?_, rfl⟩
  · intro j hj
    simp [progressEventOf, hj]
  · intro hn
    simp [progressEventOf, hn]

/-- Witness for C2: exampleParse accepts the line 42 and rejects the
line hi, and the classification follows. -/
theorem stdout_stderr_classification_witness :
    progressEventOf exampleParse "s" "42" =
        Event.progress "s" "json" (.num 42) ∧
    progressEventOf exampleParse "s" "hi" =
        Event.progress "s" "text" (.str "hi") ∧
    errorEventOf "s" "oops" = Event.error "s" "oops" :=
  ⟨(stdout_stderr_classification exampleParse "s" "42").1 (.num 42) (by simp),
    (stdout_stderr_classification exampleParse "s" "hi").2.1 (by simp),
    (stdout_stderr_classification exampleParse "s" "oops").2.2⟩

/-- Counterexample to C3 as stated: on the input where child.wait
returns a status whose code is -1 (possible on Windows, where a process
can itself exit with code -1), the emitted exit code is -1 although the
exit status was obtained, so exitCode = -1 does not hold exactly when
the status is unobtainable. -/
theorem complete_exit_code_iff_counterexample :
    completionExitCode (.ok (some (-1))) = -1 ∧
    statusUnobtainable (.ok (some (-1))) = false := by
  exact ⟨rfl, rfl⟩

/-- C3 amended: the success field of the claude:complete event is true
iff its exit code is 0; the exit code is -1 whenever the exit status is
unobtainable (killed by a signal, or wait failure); and conversely an
exit code of -1 means the status was unobtainable or the process itself
exited with code -1. -/
theorem complete_success_exit_code (cfg : SessionConfig) :
    (∀ c s, completeEventOf cfg = Event.complete cfg.sessionId c s →
        (s = true ↔ c = 0)) ∧
    (statusUnobtainable cfg.waitResult = true →
        completeEventOf cfg = Event.complete cfg.sessionId (-1) false) ∧
    (∀ c s, completeEventOf cfg = Event.complete cfg.sessionId c s →
        c = -1 →
        statusUnobtainable cfg.waitResult = true ∨
          cfg.waitResult = .ok (some (-1))) := by
  refine ⟨?_, ?_, ?_⟩
  · intro c s h
    rw [completeEventOf] at h
    injection h with h1 h2 h3
    subst h2; subst h3
    exact beq_iff_eq
  · intro h
    unfold completeEventOf completionExitCode
    cases hw : cfg.waitResult with
    | ok o =>
        cases o with
        | none => rfl
        | some c =>
            rw [hw] at h
            simp [statusUnobtainable] at h
    | error e => rfl
  · intro c s h hc
    rw [completeEventOf] at h
    injection h with h1 h2 h3
    subst h2
    cases hw : cfg.waitResult with
    | ok o =>
        cases o with
        | none => exact Or.inl (by simp [statusUnobtainable, hw])
        | some v =>
            rw [hw] at hc
            simp only [completionExitCode] at hc
            exact Or.inr (by rw [hc])
    | error e => exact Or.inl (by simp [statusUnobtainable, hw])

/-- Witness for C3 amended: for the session whose wait call fails, the
complete event carries exit code -1 and success false. -/
theorem complete_success_exit_code_witness :
    completeEventOf exampleFailedWait =
      Event.complete "session_9" (-1) false :=
  (complete_success_exit_code exampleFailedWait).2.1 rfl

/-- C4: cancel_claude takes and clears the slot under the registry
lock; with nothing registered it returns cancelled=false with a reason
as a normal Ok result, emits no events and requests no termination;
with a pid registered it requests termination of exactly that pid,
clears the slot and returns cancelled=true with the pid, all without
waiting for the process to exit. -/
theorem cancel_claude_spec (st : RegistryState) (hp : st.poisoned = false) :
    (st.slot = none →
      cancel_claude st =
        { registry := { poisoned := false, slot := none }, kills := [],
          events := [],
          result := .ok (.obj [("cancelled", .bool false),
            ("reason", .str "No active Claude Code process")]) }) ∧
    (∀ pid, st.slot = some pid →
      cancel_claude st =
        { registry := { poisoned := false, slot := none }, kills := [pid],
          events := [],
          result := .ok (.obj [("cancelled", .bool true),
            ("pid", .num (pid : Int))]) }) := by
  obtain ⟨p, slot⟩ := st
  simp only at hp
  subst hp
  constructor
  · intro h
    simp only at h
    subst h
    rfl
  · intro pid h
    simp only at h
    subst h
    rfl

/-- Witness for C4: cancelling with pid 5 registered requests the
termination of 5, clears the slot and reports cancelled=true. -/
theorem cancel_claude_spec_witness :
    cancel_claude { poisoned := false, slot := some 5 } =
      { registry := { poisoned := false, slot := none }, kills := [5],
        events := [],
        result := .ok (.obj [("cancelled", .bool true),
          ("pid", .num (5 : Int))]) } :=
  (cancel_claude_spec { poisoned := false, slot := some 5 } rfl).2 5 rfl

/-- C5: when Command::spawn fails, spawn_claude returns the formatted
SpawnFailed error synchronously; no child is running, no event of any
kind is emitted, no reader or completion thread is started, and the
registry is left exactly as it was. -/
theorem spawn_claude_failure (st : RegistryState) (e : String) :
    spawn_claude st (.error e) =
      { childSpawned := false, childPid := none, registry := st,
        events := [], readersStarted := false,
        result := .error ("Failed to spawn Claude CLI: " ++ e) } := rfl

/-- C6: detect_claude_cli always returns Ok (never an unrecoverable
failure); on a zero exit status it reports installed=true with the
trimmed stdout as version; on a nonzero exit status it reports
installed=false with the trimmed stderr, or the trimmed stdout when the
trimmed stderr is empty, as error; and on a launch failure it reports
installed=false with a descriptive message. -/
theorem detect_claude_cli_spec (r : Except String ProcOut) :
    (∃ v, detect_claude_cli r = .ok v) ∧
    (∀ out, r = .ok out → out.success = true →
      detect_claude_cli r = .ok (.obj [("installed", .bool true),
        ("version", .str out.stdout.trim), ("path", .str "claude")])) ∧
    (∀ out, r = .ok out → out.success = false →
      detect_claude_cli r = .ok (.obj [("installed", .bool false),
        ("error", .str (if out.stderr.trim.isEmpty then out.stdout.trim
          else out.stderr.trim))])) ∧
    (∀ e, r = .error e →
      detect_claude_cli r = .ok (.obj [("installed", .bool false),
        ("error", .str ("Claude CLI not found: " ++ e))])) := by
  refine ⟨?_, ?_, ?_, ?_⟩
  · cases r with
    | ok out =>
        cases hs : out.success with
        | true =>
            refine ⟨.obj [("installed", .bool true),
              ("version", .str out.stdout.trim),
              ("path", .str "claude")], ?_⟩
            simp [detect_claude_cli, hs]
        | false =>
            refine ⟨.obj [("installed", .bool false),
              ("error", .str (if out.stderr.trim.isEmpty then
                out.stdout.trim else out.stderr.trim))], ?_⟩
            simp [detect_claude_cli, hs]
    | error e => exact ⟨_, rfl⟩
  · intro out hr hs
    subst hr
    simp [detect_claude_cli, hs]
  · intro out hr hs
    subst hr
    simp [detect_claude_cli, hs]
  · intro e hr
    subst hr
    rfl

/-- Witness for C6: a probe whose process exits zero with padded stdout
reports installed=true with the trimmed version, and a probe that fails
to launch reports installed=false with a descriptive message. -/
theorem detect_claude_cli_spec_witness :
    detect_claude_cli (.ok ⟨true, " 1.0.0 ", ""⟩) =
      .ok (.obj [("installed", .bool true),
        ("version", .str (" 1.0.0 ").trim), ("path", .str "claude")]) ∧
    detect_claude_cli (.error "not found") =
      .ok (.obj [("installed", .bool false),
        ("error", .str ("Claude CLI not found: " ++ "not found"))]) :=
  ⟨(detect_claude_cli_spec (.ok ⟨true, " 1.0.0 ", ""⟩)).2.1 _ rfl rfl,
    (detect_claude_cli_spec (.error "not found")).2.2.2 "not found" rfl⟩

/-- C7: the registry is one optional pid slot with exactly two mutating
operations: spawn_claude overwrites it unconditionally with the new
pid, whatever it held; cancel_claude atomically reads it (requesting
termination of exactly the pids it held) and clears it; and a second
spawn while a session is active overwrites the tracked pid of the
first. -/
theorem registry_single_slot (st : RegistryState) (hp : st.poisoned = false)
    (pid pid2 : Nat) :
    ((spawn_claude st (.ok pid)).registry =
      { poisoned := false, slot := some pid }) ∧
    ((cancel_claude st).registry.slot = none ∧
      (cancel_claude st).kills = st.slot.toList) ∧
    ((spawn_claude (spawn_claude st (.ok pid)).registry (.ok pid2)).registry =
      { poisoned := false, slot := some pid2 }) := by
  obtain ⟨p, slot⟩ := st
  simp only at hp
  subst hp
  refine ⟨rfl, ⟨?_, ?_⟩, rfl⟩ <;> cases slot <;> rfl

/-- Witness for C7: starting from pid 3 registered, a spawn with pid 1
overwrites the slot, cancel take-and-clears it, and a second spawn with
pid 2 overwrites the first. -/
theorem registry_single_slot_witness :
    ((spawn_claude { poisoned := false, slot := some 3 }
        (.ok 1)).registry = { poisoned := false, slot := some 1 }) ∧
    ((cancel_claude { poisoned := false, slot := some 3 }).registry.slot
        = none ∧
      (cancel_claude { poisoned := false, slot := some 3 }).kills =
        (some 3 : Option Nat).toList) ∧
    ((spawn_claude (spawn_claude { poisoned := false, slot := some 3 }
        (.ok 1)).registry (.ok 2)).registry =
      { poisoned := false, slot := some 2 }) :=
  registry_single_slot { poisoned := false, slot := some 3 } rfl 1 2

/-- C8: with the registry mutex poisoned, cancel_claude returns the
poison message as a structured error (emitting nothing and killing
nothing), and spawn_claude likewise returns it as a structured error;
neither panics, both being total functions into their outcome types. -/
theorem poisoned_lock_recoverable (st : RegistryState)
    (hp : st.poisoned = true) (pid : Nat) :
    (cancel_claude st).result = .error poisonedLockMsg ∧
    (cancel_claude st).events = [] ∧
    (cancel_claude st).kills = [] ∧
    (spawn_claude st (.ok pid)).result = .error poisonedLockMsg := by
  obtain ⟨p, slot⟩ := st
  simp only at hp
  subst hp
  exact ⟨rfl, rfl, rfl, rfl⟩

/-- Witness for C8: with a poisoned registry both commands report the
poison message as an error result. -/
theorem poisoned_lock_recoverable_witness :
    (cancel_claude { poisoned := true, slot := none }).result =
        .error poisonedLockMsg ∧
    (cancel_claude { poisoned := true, slot := none }).events = [] ∧
    (cancel_claude { poisoned := true, slot := none }).kills = [] ∧
    (spawn_claude { poisoned := true, slot := none } (.ok 7)).result =
        .error poisonedLockMsg :=
  poisoned_lock_recoverable { poisoned := true, slot := none } rfl 7

/-- C10: when the registry lock is poisoned at pid registration time,
spawn_claude returns an error although the child was already launched:
the registry is unchanged (the pid is never registered), no started
event or any other event is emitted, and no reader or completion thread
is started, leaving the child running untracked. -/
theorem spawn_claude_poisoned_after_launch (st : RegistryState)
    (hp : st.poisoned = true) (pid : Nat) :
    spawn_claude st (.ok pid) =
      { childSpawned := true, childPid := some pid, registry := st,
        events := [], readersStarted := false,
        result := .error poisonedLockMsg } := by
  obtain ⟨p, slot⟩ := st
  simp only at hp
  subst hp
  rfl

/-- Witness for C10: launching pid 9 against a poisoned registry yields
the untracked-child outcome. -/
theorem spawn_claude_poisoned_after_launch_witness :
    spawn_claude { poisoned := true, slot := some 4 } (.ok 9) =
      { childSpawned := true, childPid := some 9,
        registry := { poisoned := true, slot := some 4 },
        events := [], readersStarted := false,
        result := .error poisonedLockMsg } :=
  spawn_claude_poisoned_after_launch { poisoned := true, slot := some 4 }
    rfl 9

/-- C9: detect_claude_cli waits with no bound: on the input modelling a
probed process that never exits, Command::output never returns and the
probe never returns a result, contradicting the bounded-wait contract
stated in the specification. -/
theorem detect_claude_cli_unbounded_wait :
    detect_claude_cli_run none = none := rfl

end MindMapper
